import Mathlib

/-!
Verification of the managesieve session engine and the trc error/context
model of the mail-server repository, by shallow embedding of the Rust
sources (crates/managesieve/src/core/client.rs,
crates/managesieve/src/op/setactive.rs, crates/trc/src/imple.rs) into Lean.
-/

set_option maxHeartbeats 1600000

namespace MailServer

/-! ## The trc error/context model (crates/trc/src/imple.rs) -/

/-- Annotation keys of the trc context model (`trc::Key`), restricted to the
variants exercised by the sampled sources. -/
inductive Key where
  | causedBy
  | details
  | code
  | id
  | reason
  | protocol
  | documentId
  | accountId
  | collection
  | property
  | keyK
  | valueK
  deriving DecidableEq

/-- Root cause tags (`trc::Cause` and `trc::LimitCause`), restricted to the
variants exercised by the sampled sources. Modelled from the spec for the
variant list: a closed tag set identifying the failure category. -/
inductive Cause where
  | manageSieve
  | network
  | dataCorruption
  | tooManyRequests
  | notFound
  deriving DecidableEq

/-- Wire response codes used by the managesieve validator
(`ResponseCode::EncryptNeeded`, `TryLater`, `NonExistent`). -/
inductive ResponseCode where
  | encryptNeeded
  | tryLater
  | nonExistent
  deriving DecidableEq

mutual

/-- `trc::Value`: a small closed union of annotation values. The `err`
variant holds a chained error (used by `caused_by`); `noneV` is the
`Default` value that fills unused annotation slots. -/
inductive Value where
  | noneV : Value
  | uInt : Nat → Value
  | int : Int → Value
  | str : String → Value
  | static : String → Value
  | code : ResponseCode → Value
  | err : TrcError → Value

/-- `trc::Error = Context<Cause, N>`: a root cause, a fixed-size annotation
array `keys` (its length is the capacity `N`), and the high-water mark
`keys_size` counting the annotations in use. -/
inductive TrcError where
  | mk : Cause → List (Key × Value) → Nat → TrcError

end

namespace TrcError

/-- The root cause (`Context.inner`). -/
def inner : TrcError → Cause
  | .mk c _ _ => c

/-- The underlying fixed-size annotation array (`Context.keys`). -/
def keys : TrcError → List (Key × Value)
  | .mk _ ks _ => ks

/-- The number of annotations in use (`Context.keys_size`). -/
def keysSize : TrcError → Nat
  | .mk _ _ n => n

/-- The capacity `N`: the length of the fixed annotation array. -/
def capacity (e : TrcError) : Nat := e.keys.length

/-- The annotations in use, in insertion order. -/
def annotations (e : TrcError) : List (Key × Value) := e.keys.take e.keysSize

/-- `Context::new(inner)`: zero annotations; the array of capacity `n` is
filled with default entries. -/
def new (c : Cause) (n : Nat) : TrcError :=
  .mk c (List.replicate n (Key.causedBy, Value.noneV)) 0

/-- `Context::ctx(key, value)` as compiled in release builds: append the
annotation at index `keys_size` when capacity remains, otherwise return the
context unchanged (the `debug_assertions` branch is absent). -/
def ctx : TrcError → Key → Value → TrcError
  | .mk c ks n, k, v =>
    if n < ks.length then .mk c (ks.set n (k, v)) (n + 1) else .mk c ks n

/-- `Context::ctx(key, value)` as compiled in debug builds: `none` models the
`panic!` taken when the context is full. -/
def ctxDebug : TrcError → Key → Value → Option TrcError
  | .mk c ks n, k, v =>
    if n < ks.length then some (.mk c (ks.set n (k, v)) (n + 1)) else none

/-- `Context::value(key)`: linear scan over the annotations in use, first
match wins. -/
def value (e : TrcError) (key : Key) : Option Value :=
  ((e.keys.take e.keysSize).find? (fun p => p.1 == key)).map (fun p => p.2)

/-- `Context::caused_by(error)`. -/
def causedBy (e : TrcError) (v : Value) : TrcError := e.ctx .causedBy v

/-- `Context::details(error)`. -/
def details (e : TrcError) (v : Value) : TrcError := e.ctx .details v

/-- `Context::code(error)`; `ResponseCode` converts into a `Value`. -/
def code (e : TrcError) (c : ResponseCode) : TrcError := e.ctx .code (.code c)

/-- `Context::reason(error)`: the `Display` rendering is stored as an owned
string. -/
def reason (e : TrcError) (s : String) : TrcError := e.ctx .reason (.str s)

/-- `Error::wrap(cause)`: a new outer error (same capacity `N`) whose
`caused_by` annotation is the original error. -/
def wrap (e : TrcError) (c : Cause) : TrcError :=
  (TrcError.new c e.capacity).causedBy (.err e)

end TrcError

/-- `CONTEXT_SIZE`: the annotation capacity the `trc::Error` alias fixes at
construction. Modelled from the spec: the constant itself is declared
outside the sampled sources; the spec requires it generous, and only the
first few slots are exercised by the claims. -/
def CONTEXT_SIZE : Nat := 8

/-- `Cause::into_err()`: `Error::new(self)`. -/
def Cause.intoErr (c : Cause) : TrcError := TrcError.new c CONTEXT_SIZE

/-- `Cause::ctx(key, value)`. -/
def Cause.ctx (c : Cause) (k : Key) (v : Value) : TrcError := (c.intoErr).ctx k v

/-! ## The managesieve session engine (crates/managesieve/src/core/client.rs) -/

/-- The closed command enumeration of the managesieve protocol. -/
inductive Command where
  | listScripts
  | putScript
  | setActive
  | getScript
  | deleteScript
  | renameScript
  | checkScript
  | haveSpace
  | capability
  | authenticate
  | startTls
  | logout
  | noop
  | unauthenticate
  deriving DecidableEq

/-- The nine script-management commands: those routed through the
authenticated arm of `validate_request`. -/
def Command.isScriptCmd : Command → Bool
  | .haveSpace | .putScript | .listScripts | .setActive | .getScript
  | .deleteScript | .renameScript | .checkScript | .unauthenticate => true
  | _ => false

/-- Wire-parser argument tokens. Modelled from the spec: the receiver
(imap_proto, outside the sampled sources) produces strings, numbers, or
literal byte blobs; `unwrap_string` succeeds only on a string token. -/
inductive Token where
  | str : String → Token
  | num : Nat → Token
  | blob : List Nat → Token
  deriving DecidableEq

/-- `Token::unwrap_string().ok()`. -/
def Token.unwrapString : Token → Option String
  | .str s => some s
  | _ => none

/-- A parsed request: a command tag plus its ordered argument tokens. -/
structure Request where
  command : Command
  tokens : List Token
  deriving DecidableEq

/-- The access token attached to an authenticated session; only its primary
account id is consulted by the sampled sources. -/
structure AccessToken where
  primaryId : Nat
  deriving DecidableEq

/-- The session `State`: `NotAuthenticated` or `Authenticated` with an
access token. -/
inductive SessState where
  | notAuthenticated
  | authenticated (token : AccessToken)

/-- The per-session configuration consulted by `validate_request`:
`self.stream.is_tls()`, `self.jmap.core.imap.allow_plain_auth`, and whether
`self.jmap.core.imap.rate_requests` is configured (`Some`). -/
structure SessionCfg where
  isTls : Bool
  allowPlainAuth : Bool
  hasRateLimit : Bool

/-- The outcome of `is_rate_allowed`: the lookup store either fails, or
reports `None` (request allowed) or `Some _` (quota exceeded). The limiter
collaborator is a function from the key string to this outcome. -/
abbrev Limiter := String → Except TrcError (Option Nat)

/-- The `trc::location!()` value with which `validate_request` annotates a
propagated limiter-storage failure. -/
def clientValidateLoc : Value := .static "crates/managesieve/src/core/client.rs:162"

/-- `Result::caused_by(location)` from `trc::AddContext`: annotate only the
error arm. -/
def causedByLoc (r : Except TrcError (Option Nat)) (loc : Value) :
    Except TrcError (Option Nat) :=
  match r with
  | .ok v => .ok v
  | .error e => .error (e.ctx .causedBy loc)

/-- `Session::validate_request`, returning the validation outcome together
with the list of rate-limiter keys looked up (its only collaborator call). -/
def validate_request (cfg : SessionCfg) (st : SessState) (limiter : Limiter)
    (req : Request) : Except TrcError Request × List String :=
  match req.command with
  | .capability | .logout | .noop => (.ok req, [])
  | .authenticate =>
    match st with
    | .notAuthenticated =>
      if cfg.isTls || cfg.allowPlainAuth then
        (.ok req, [])
      else
        (.error ((Cause.manageSieve.intoErr.code .encryptNeeded).details
          (.static "Cannot authenticate over plain-text.")), [])
    | .authenticated _ =>
      (.error (Cause.manageSieve.intoErr.details
        (.static "Already authenticated.")), [])
  | .startTls =>
    if !cfg.isTls then
      (.ok req, [])
    else
      (.error (Cause.manageSieve.intoErr.details
        (.static "Already in TLS mode.")), [])
  | .haveSpace | .putScript | .listScripts | .setActive | .getScript
  | .deleteScript | .renameScript | .checkScript | .unauthenticate =>
    match st with
    | .authenticated accessToken =>
      if cfg.hasRateLimit then
        let key := "ireq:" ++ toString accessToken.primaryId
        (match causedByLoc (limiter key) clientValidateLoc with
         | .error e => .error e
         | .ok o =>
           if o.isNone then
             .ok req
           else
             .error (Cause.tooManyRequests.intoErr.code .tryLater), [key])
      else
        (.ok req, [])
    | .notAuthenticated =>
      (.error (Cause.manageSieve.intoErr.details
        (.static "Not authenticated.")), [])

/-! ## The ingest dispatcher loop -/

/-- A wire status response line (`StatusResponse::ok` / `StatusResponse::no`). -/
inductive StatusResponse where
  | ok (msg : String)
  | no (msg : String)
  deriving DecidableEq

/-- `StatusResponse::into_bytes`. Modelled from the spec: responses are
status lines of the form `OK <message>` or `NO <message>` (the serializer is
outside the sampled sources). -/
def StatusResponse.intoBytes : StatusResponse → String
  | .ok msg => "OK " ++ msg ++ "\r\n"
  | .no msg => "NO " ++ msg ++ "\r\n"

/-- The outcome of one `receiver.parse` call. Modelled from the spec: the
wire parser (imap_proto, outside the sampled sources) returns a complete
request, a needs-more-data signal, a needs-literal signal with the declared
size, or a protocol-syntax error with a message. -/
inductive ParseResult where
  | ok (req : Request)
  | needsMoreData
  | needsLiteral (size : Nat)
  | errMsg (response : String)

/-- One write performed by `ingest` on the stream, tagged by provenance:
a serialized status line, a serialized `trc` error (`write_error`), a
handler-produced response, or the raw literal-acknowledgement line. -/
inductive Out where
  | status (r : StatusResponse)
  | errOut (e : TrcError)
  | response (bytes : String)
  | line (s : String)
  deriving Inhabited

/-- `common::listener::SessionResult`. -/
inductive SessionResult where
  | Continue
  | Close
  | UpgradeTls
  deriving DecidableEq

/-- The collaborators `ingest` consumes: the session configuration and
state, the rate limiter, the per-batch-index operation-handler outcome
(Modelled from the spec: handlers are single-collaborator calls producing a
wire response or a classified error), and whether the i-th stream write
succeeds. -/
structure IngestEnv where
  cfg : SessionCfg
  st : SessState
  limiter : Limiter
  exec : Nat → Request → Except TrcError String
  writeOk : Nat → Bool

/-- The state threaded out of the parse loop: the validated batch, the
pending literal size, the writes so far, and the write counter. -/
abbrev LoopOut := List Request × Option Nat × List Out × Nat

/-- The parse/validate loop of `ingest` (lines 27-58): parse until the
receiver signals needs-more-data or needs-literal; a request failing
validation is answered with `write_error` and the loop continues; a syntax
error is answered with a `NO` status line and breaks the loop. `Except.error`
carries the writes performed before a fatal stream-write failure. -/
def parseLoop (env : IngestEnv) :
    List ParseResult → List Request → List Out → Nat → Except (List Out) LoopOut
  | [], reqs, outs, w => .ok (reqs, none, outs, w)
  | p :: rest, reqs, outs, w =>
    match p with
    | .ok request =>
      match (validate_request env.cfg env.st env.limiter request).1 with
      | .ok req => parseLoop env rest (reqs ++ [req]) outs w
      | .error e =>
        if env.writeOk w then parseLoop env rest reqs (outs ++ [.errOut e]) (w + 1)
        else .error outs
    | .needsMoreData => .ok (reqs, none, outs, w)
    | .needsLiteral n => .ok (reqs, some n, outs, w)
    | .errMsg msg =>
      if env.writeOk w then .ok (reqs, none, outs ++ [.status (.no msg)], w + 1)
      else .error outs

/-- The outcome of the batch-execution loop: either the batch was exhausted
(`done`, continue to the literal acknowledgement), or `ingest` returns early
(`finished`) — on `Logout` with `Close`, on `StartTls` with `UpgradeTls`,
or with `Close` on a stream-write failure. -/
inductive DispatchRes where
  | done (outs : List Out) (w : Nat)
  | finished (r : SessionResult) (outs : List Out)

/-- The batch-execution loop of `ingest` (lines 60-97): run each validated
request's handler in order; successes are written and `Logout`/`StartTls`
return immediately; failures are written back via `write_error`. -/
def dispatchLoop (env : IngestEnv) :
    List Request → Nat → List Out → Nat → DispatchRes
  | [], _, outs, w => .done outs w
  | req :: rest, i, outs, w =>
    match env.exec i req with
    | .ok resp =>
      if env.writeOk w then
        match req.command with
        | .logout => .finished .Close (outs ++ [.response resp])
        | .startTls => .finished .UpgradeTls (outs ++ [.response resp])
        | _ => dispatchLoop env rest (i + 1) (outs ++ [.response resp]) (w + 1)
      else .finished .Close outs
    | .error e =>
      if env.writeOk w then dispatchLoop env rest (i + 1) (outs ++ [.errOut e]) (w + 1)
      else .finished .Close outs

/-- The literal-acknowledgement line written when the parse loop ended
needing a literal of `n` bytes. -/
def readyLine (n : Nat) : String := "OK Ready for " ++ toString n ++ " bytes.\r\n"

/-- `Session::ingest`: the parse/validate loop, then the batch-execution
loop, then the literal acknowledgement; returns the session result together
with the ordered list of writes performed on the stream. The byte input is
represented by the stream of results successive `receiver.parse` calls
return on it during this call. -/
def ingest (env : IngestEnv) (parses : List ParseResult) :
    SessionResult × List Out :=
  match parseLoop env parses [] [] 0 with
  | .error outs => (.Close, outs)
  | .ok (reqs, lit, outs, w) =>
    match dispatchLoop env reqs 0 outs w with
    | .finished r outs => (r, outs)
    | .done outs w =>
      match lit with
      | some n =>
        if env.writeOk w then (.Continue, outs ++ [.line (readyLine n)])
        else (.Close, outs)
      | none => (.Continue, outs)

/-! ## The set-active-script operation (crates/managesieve/src/op/setactive.rs) -/

/-- Storage collection tags; only `Collection::SieveScript` is exercised. -/
inductive Collection where
  | sieveScript
  deriving DecidableEq

/-- The error type of an operation handler (`super::OpResult`'s error arm):
either a wire status response (from argument validation) or a `trc` error
(from collaborators); the conversion between the two lives outside the
sampled sources. -/
inductive OpErr where
  | status (s : StatusResponse)
  | err (e : TrcError)

/-- The storage collaborators `handle_setactive` consumes: the exact-match
name filter on the account's `SieveScript` collection (returning the set of
matching document ids), the activation primitive
(`sieve_activate_script`, returning the changed `(document_id, _)`
records), and the change-log commit (`commit_changes`). Modelled from the
spec at their interface boundary: their implementations are outside the
sampled sources. -/
structure SetActiveEnv where
  filter : Nat → String → Except TrcError (List Nat)
  activate : Nat → Option Nat → Except TrcError (List (Nat × Bool))
  commit : Nat → List (Collection × Nat) → Except TrcError Unit

/-- A collaborator call performed by `handle_setactive`, in order. -/
inductive SieveCall where
  | filterCall (accountId : Nat) (name : String)
  | activateCall (accountId : Nat) (target : Option Nat)
  | commitCall (accountId : Nat) (entries : List (Collection × Nat))
  deriving DecidableEq

/-- The `trc::location!()` value with which `get_script_id` annotates a
propagated filter failure. -/
def getScriptLoc : Value := .static "crates/managesieve/src/core/client.rs:241"

/-- The error `get_script_id` synthesizes when no stored script matches. -/
def noScriptErr : TrcError :=
  (Cause.manageSieve.intoErr.code .nonExistent).reason
    "There is no script by that name"

/-- `Session::get_script_id` (client.rs lines 230-250): filter the account's
`SieveScript` collection for an exact name match; a filter failure
propagates annotated with the call site; the minimum matching document id
wins; zero matches synthesize the non-existent error. -/
def get_script_id (env : SetActiveEnv) (accountId : Nat) (name : String) :
    Except TrcError Nat :=
  match env.filter accountId name with
  | .error e => .error (e.ctx .causedBy getScriptLoc)
  | .ok results =>
    match results.min? with
    | some docId => .ok docId
    | none => .error noScriptErr

/-- The activation-plus-change-log tail of `handle_setactive` (lines 24-45):
invoke the activation primitive; when the changed-record set is non-empty,
build a change log with one update entry per changed document and commit it;
reply with the `Success` status. -/
def activateAndCommit (env : SetActiveEnv) (accountId : Nat)
    (target : Option Nat) (log : List SieveCall) :
    Except OpErr String × List SieveCall :=
  let log := log ++ [.activateCall accountId target]
  match env.activate accountId target with
  | .error e => (.error (.err e), log)
  | .ok changes =>
    if changes.isEmpty then
      (.ok (StatusResponse.ok "Success").intoBytes, log)
    else
      let entries := changes.map (fun c => (Collection.sieveScript, c.1))
      match env.commit accountId entries with
      | .error e => (.error (.err e), log ++ [.commitCall accountId entries])
      | .ok _ => (.ok (StatusResponse.ok "Success").intoBytes,
          log ++ [.commitCall accountId entries])

/-- `Session::handle_setactive`: the first token must unwrap to a string
(else the `Expected script name as a parameter.` status); an empty name
deactivates (no lookup); a non-empty name is resolved through
`get_script_id` before activation. `accountId` is the authenticated access
token's primary id. Returns the outcome together with the ordered
collaborator-call log. -/
def handle_setactive (env : SetActiveEnv) (accountId : Nat) (req : Request) :
    Except OpErr String × List SieveCall :=
  match req.tokens.head?.bind Token.unwrapString with
  | none => (.error (.status (.no "Expected script name as a parameter.")), [])
  | some name =>
    if name.isEmpty then
      activateAndCommit env accountId none []
    else
      match get_script_id env accountId name with
      | .error e => (.error (.err e), [.filterCall accountId name])
      | .ok docId =>
        activateAndCommit env accountId (some docId) [.filterCall accountId name]

/-! ## Theorems -/

/-- Writing into slot `n` of a list and taking one more element appends the
written entry to the previous prefix. -/
theorem take_set_append {α : Type} (l : List α) (n : Nat) (a : α)
    (h : n < l.length) : (l.set n a).take (n + 1) = l.take n ++ [a] := by
  induction l generalizing n with
  | nil => simp at h
  | cons x xs ih =>
    cases n with
    | zero => simp
    | succ m =>
      simp only [List.set_cons_succ, List.take_succ_cons, List.cons_append]
      exact congrArg (x :: ·) (ih m (by simpa using h))

/-- C8: with `k` annotations in a capacity-`N` context, `ctx` appends the
new entry as the `(k+1)`-th annotation leaving the earlier ones unchanged
while capacity remains; at capacity, release builds return the context
unchanged and debug builds treat it as a defect; no existing entry is ever
overwritten. -/
theorem ctx_append_or_drop (e : TrcError) (k : Key) (v : Value) :
    (e.keysSize < e.capacity →
      (e.ctx k v).annotations = e.annotations ++ [(k, v)] ∧
      (e.ctx k v).keysSize = e.keysSize + 1 ∧
      e.ctxDebug k v = some (e.ctx k v)) ∧
    (e.keysSize = e.capacity →
      e.ctx k v = e ∧ e.ctxDebug k v = none) := by
  obtain ⟨c, ks, n⟩ := e
  constructor
  · intro hlt
    simp only [TrcError.capacity, TrcError.keys, TrcError.keysSize] at hlt
    simp [TrcError.ctx, TrcError.ctxDebug, TrcError.annotations,
      TrcError.keys, TrcError.keysSize, if_pos hlt,
      take_set_append ks n (k, v) hlt]
  · intro heq
    simp only [TrcError.capacity, TrcError.keys, TrcError.keysSize] at heq
    simp only [TrcError.ctx, TrcError.ctxDebug, heq, lt_self_iff_false,
      if_false, and_self]

/-- Witness for C8 at a concrete context: capacity 2 with one annotation in
use appends; capacity 1 at high-water mark drops. -/
theorem ctx_append_or_drop_witness :
    ((TrcError.mk .network [(.details, .noneV), (.causedBy, .noneV)] 1).ctx
        .reason (.uInt 7)).annotations =
      [(Key.details, Value.noneV), (Key.reason, Value.uInt 7)] ∧
    (TrcError.mk .network [(.details, .str "x")] 1).ctx .reason (.uInt 7) =
      TrcError.mk .network [(.details, .str "x")] 1 := by
  refine ⟨?_, ?_⟩
  · have h := (ctx_append_or_drop
      (TrcError.mk .network [(.details, .noneV), (.causedBy, .noneV)] 1)
      .reason (.uInt 7)).1 (by decide)
    calc ((TrcError.mk .network [(.details, .noneV), (.causedBy, .noneV)] 1).ctx
          .reason (.uInt 7)).annotations
        = (TrcError.mk .network
            [(.details, .noneV), (.causedBy, .noneV)] 1).annotations ++
            [(.reason, .uInt 7)] := h.1
      _ = [(Key.details, Value.noneV), (Key.reason, Value.uInt 7)] := rfl
  · exact ((ctx_append_or_drop
      (TrcError.mk .network [(.details, .str "x")] 1) .reason (.uInt 7)).2
      rfl).1

/-- C9: `wrap` produces an error rooted at the new cause whose `CausedBy`
annotation recovers the original error unchanged (hence in particular its
rendered form). -/
theorem wrap_caused_by_roundtrip (e : TrcError) (c : Cause)
    (h : 1 ≤ e.capacity) :
    (e.wrap c).value .causedBy = some (.err e) ∧ (e.wrap c).inner = c := by
  obtain ⟨m, hm⟩ : ∃ m, e.capacity = m + 1 :=
    ⟨e.capacity - 1, by omega⟩
  constructor
  · simp only [TrcError.wrap, TrcError.new, TrcError.causedBy, TrcError.ctx,
      TrcError.value, hm, List.replicate_succ]
    simp [TrcError.keys, TrcError.keysSize, List.find?]
  · simp only [TrcError.wrap, TrcError.new, TrcError.causedBy, TrcError.ctx,
      TrcError.inner, hm, List.replicate_succ]
    simp [TrcError.inner]

/-- Witness for C9 at a concrete error of capacity 8. -/
theorem wrap_caused_by_roundtrip_witness :
    1 ≤ (Cause.network.intoErr.reason "boom").capacity ∧
    ((Cause.network.intoErr.reason "boom").wrap .manageSieve).value .causedBy =
      some (.err (Cause.network.intoErr.reason "boom")) := by
  refine ⟨by decide, ?_⟩
  exact (wrap_caused_by_roundtrip (Cause.network.intoErr.reason "boom")
    .manageSieve (by decide)).1

/-- The error `validate_request` synthesizes for an unauthenticated
script-management command. -/
def notAuthErr : TrcError :=
  Cause.manageSieve.intoErr.details (.static "Not authenticated.")

/-- The error `validate_request` synthesizes for plain-text authentication. -/
def encryptErr : TrcError :=
  (Cause.manageSieve.intoErr.code .encryptNeeded).details
    (.static "Cannot authenticate over plain-text.")

/-- The error `validate_request` synthesizes for a second authentication. -/
def alreadyAuthErr : TrcError :=
  Cause.manageSieve.intoErr.details (.static "Already authenticated.")

/-- The error `validate_request` synthesizes for `StartTls` on a secured
transport. -/
def alreadyTlsErr : TrcError :=
  Cause.manageSieve.intoErr.details (.static "Already in TLS mode.")

/-- The error `validate_request` synthesizes when the limiter reports the
quota exceeded. -/
def tooManyErr : TrcError := Cause.tooManyRequests.intoErr.code .tryLater

/-- C1: in `NotAuthenticated` state every script-management command is
rejected with the `Not authenticated.` details and no collaborator call
(in particular no rate-limiter lookup) occurs; `validate_request`'s only
collaborator is the limiter, and its call list is empty. -/
theorem validate_not_authenticated (cfg : SessionCfg) (limiter : Limiter)
    (req : Request) (h : req.command.isScriptCmd = true) :
    validate_request cfg .notAuthenticated limiter req = (.error notAuthErr, []) ∧
    notAuthErr.value .details = some (.static "Not authenticated.") := by
  refine ⟨?_, rfl⟩
  cases hc : req.command <;>
    simp [Command.isScriptCmd, hc] at h ⊢ <;>
    simp [validate_request, hc, notAuthErr]

/-- Witness for C1: a `PutScript` request on a fresh unauthenticated
session. -/
theorem validate_not_authenticated_witness :
    (Request.mk .putScript []).command.isScriptCmd = true ∧
    validate_request ⟨false, false, false⟩ .notAuthenticated
        (fun _ => .ok none) (Request.mk .putScript []) =
      (.error notAuthErr, []) :=
  ⟨rfl, (validate_not_authenticated ⟨false, false, false⟩
    (fun _ => .ok none) (Request.mk .putScript []) rfl).1⟩

/-- C2: `Authenticate` while `NotAuthenticated` passes exactly when the
transport is TLS-secured or plain-text authentication is allowed, and
otherwise fails with the `EncryptNeeded` code and the
`Cannot authenticate over plain-text.` details; while `Authenticated` it
fails with the `Already authenticated.` details. -/
theorem validate_authenticate (cfg : SessionCfg) (limiter : Limiter)
    (req : Request) (tok : AccessToken) (h : req.command = .authenticate) :
    (validate_request cfg .notAuthenticated limiter req =
      ((if cfg.isTls || cfg.allowPlainAuth then .ok req else .error encryptErr),
        []) ∧
      encryptErr.value .code = some (.code .encryptNeeded) ∧
      encryptErr.value .details =
        some (.static "Cannot authenticate over plain-text.")) ∧
    (validate_request cfg (.authenticated tok) limiter req =
      (.error alreadyAuthErr, []) ∧
      alreadyAuthErr.value .details = some (.static "Already authenticated.")) := by
  refine ⟨⟨?_, rfl, rfl⟩, ?_, rfl⟩
  · simp only [validate_request, h, encryptErr]
    by_cases hb : cfg.isTls = true ∨ cfg.allowPlainAuth = true <;> simp [hb]
  · simp [validate_request, h, alreadyAuthErr]

/-- Witness for C2: plain-text authentication with TLS off and plain auth
disallowed is rejected with the encryption-needed error. -/
theorem validate_authenticate_witness :
    (Request.mk .authenticate []).command = .authenticate ∧
    validate_request ⟨false, false, false⟩ .notAuthenticated
        (fun _ => .ok none) (Request.mk .authenticate []) =
      (.error encryptErr, []) := by
  have h := (validate_authenticate ⟨false, false, false⟩ (fun _ => .ok none)
    (Request.mk .authenticate []) ⟨0⟩ rfl).1.1
  exact ⟨rfl, by simpa using h⟩

/-- C3: an authenticated script-management command with a configured request
rate limit consults the limiter exactly once with key
`ireq:<primary account id>`; a limiter-storage failure propagates annotated
with the call site; a reported quota excess is rejected with the
`TooManyRequests` cause carrying the `TryLater` code; otherwise validation
passes. -/
theorem validate_rate_limit (cfg : SessionCfg) (limiter : Limiter)
    (req : Request) (tok : AccessToken) (e : TrcError) (t : Nat)
    (hcmd : req.command.isScriptCmd = true) (hrate : cfg.hasRateLimit = true) :
    (validate_request cfg (.authenticated tok) limiter req).2 =
      ["ireq:" ++ toString tok.primaryId] ∧
    (limiter ("ireq:" ++ toString tok.primaryId) = .error e →
      (validate_request cfg (.authenticated tok) limiter req).1 =
        .error (e.ctx .causedBy clientValidateLoc)) ∧
    (limiter ("ireq:" ++ toString tok.primaryId) = .ok none →
      (validate_request cfg (.authenticated tok) limiter req).1 = .ok req) ∧
    (limiter ("ireq:" ++ toString tok.primaryId) = .ok (some t) →
      (validate_request cfg (.authenticated tok) limiter req).1 =
        .error tooManyErr) := by
  refine ⟨?_, ?_, ?_, ?_⟩ <;>
    cases hc : req.command <;>
      simp [Command.isScriptCmd, hc] at hcmd <;>
      first
      | (intro hl
         simp [validate_request, hc, hrate, causedByLoc, hl, tooManyErr])
      | simp [validate_request, hc, hrate, causedByLoc]

/-- Witness for C3: a rate-limited `ListScripts` for account 9 is rejected
with the try-later error, and the limiter was consulted with key `ireq:9`. -/
theorem validate_rate_limit_witness :
    (Request.mk .listScripts []).command.isScriptCmd = true ∧
    (SessionCfg.mk false false true).hasRateLimit = true ∧
    ((fun _ => Except.ok (some 1) : Limiter) ("ireq:" ++ toString (9 : Nat)) =
      .ok (some 1)) ∧
    (validate_request ⟨false, false, true⟩ (.authenticated ⟨9⟩)
        (fun _ => .ok (some 1)) (Request.mk .listScripts [])).2 =
      ["ireq:" ++ toString (9 : Nat)] ∧
    (validate_request ⟨false, false, true⟩ (.authenticated ⟨9⟩)
        (fun _ => .ok (some 1)) (Request.mk .listScripts [])).1 =
      .error tooManyErr := by
  have h := validate_rate_limit ⟨false, false, true⟩ (fun _ => .ok (some 1))
    (Request.mk .listScripts []) ⟨9⟩ notAuthErr 1 rfl rfl
  exact ⟨rfl, rfl, rfl, h.1, h.2.2.2 rfl⟩

/-- C4: a `Logout` whose response is written returns `Close` immediately and
a `StartTls` whose response is written returns `UpgradeTls` immediately — in
both cases the rest of the batch is abandoned (the outcome is invariant
under replacing the remaining batch entries); and `StartTls` validates
exactly when the transport is not yet secured, failing otherwise with the
`Already in TLS mode.` details. -/
theorem ingest_terminal_commands (env : IngestEnv) (req : Request)
    (resp : String) (rest rest' : List Request) (i w : Nat) (outs : List Out)
    (cfg : SessionCfg) (st : SessState) (limiter : Limiter) :
    (req.command = .logout → env.exec i req = .ok resp →
      env.writeOk w = true →
      dispatchLoop env (req :: rest) i outs w =
        .finished .Close (outs ++ [.response resp]) ∧
      dispatchLoop env (req :: rest) i outs w =
        dispatchLoop env (req :: rest') i outs w) ∧
    (req.command = .startTls → env.exec i req = .ok resp →
      env.writeOk w = true →
      dispatchLoop env (req :: rest) i outs w =
        .finished .UpgradeTls (outs ++ [.response resp]) ∧
      dispatchLoop env (req :: rest) i outs w =
        dispatchLoop env (req :: rest') i outs w) ∧
    (req.command = .startTls →
      (validate_request cfg st limiter req).1 =
        (if cfg.isTls = false then .ok req else .error alreadyTlsErr) ∧
      alreadyTlsErr.value .details = some (.static "Already in TLS mode.")) ∧
    (∀ (parses : List ParseResult) (reqs : List Request) (lit : Option Nat)
        (outs₀ : List Out) (w₀ : Nat) (r : SessionResult) (outs₁ : List Out),
      parseLoop env parses [] [] 0 = .ok (reqs, lit, outs₀, w₀) →
      dispatchLoop env reqs 0 outs₀ w₀ = .finished r outs₁ →
      ingest env parses = (r, outs₁)) := by
  refine ⟨?_, ?_, ?_, ?_⟩
  · intro hc he hw
    simp [dispatchLoop, hc, he, hw]
  · intro hc he hw
    simp [dispatchLoop, hc, he, hw]
  · intro hc
    refine ⟨?_, rfl⟩
    cases ht : cfg.isTls <;> simp [validate_request, hc, ht, alreadyTlsErr]
  · intro parses reqs lit outs₀ w₀ r outs₁ hp hd
    simp [ingest, hp, hd]

/-- Witness for C4: a trivial environment executing a `Logout` followed by a
`Noop` closes right after the logout response — the trailing `Noop` is never
executed — and `StartTls` validation on a secured transport fails. -/
theorem ingest_terminal_commands_witness :
    (Request.mk .logout []).command = .logout ∧
    dispatchLoop
        ⟨⟨false, false, false⟩, .notAuthenticated, fun _ => .ok none,
          fun _ _ => .ok "Bye", fun _ => true⟩
        [Request.mk .logout [], Request.mk .noop []] 0 [] 0 =
      .finished .Close [.response "Bye"] ∧
    ingest
        ⟨⟨false, false, false⟩, .notAuthenticated, fun _ => .ok none,
          fun _ _ => .ok "Bye", fun _ => true⟩
        [.ok (Request.mk .logout []), .ok (Request.mk .noop []),
          .needsMoreData] =
      (.Close, [.response "Bye"]) ∧
    (validate_request ⟨true, false, false⟩ .notAuthenticated
        (fun _ => .ok none) (Request.mk .startTls [])).1 =
      .error alreadyTlsErr := by
  have h := ingest_terminal_commands
    ⟨⟨false, false, false⟩, .notAuthenticated, fun _ => .ok none,
      fun _ _ => .ok "Bye", fun _ => true⟩
    (Request.mk .logout []) "Bye" [Request.mk .noop []] [] 0 0 []
    ⟨true, false, false⟩ .notAuthenticated (fun _ => .ok none)
  have h2 := ingest_terminal_commands
    ⟨⟨false, false, false⟩, .notAuthenticated, fun _ => .ok none,
      fun _ _ => .ok "Bye", fun _ => true⟩
    (Request.mk .startTls []) "Bye" [] [] 0 0 []
    ⟨true, false, false⟩ .notAuthenticated (fun _ => .ok none)
  have hclose := (h.1 rfl rfl rfl).1
  refine ⟨rfl, hclose, ?_, (h2.2.2.1 rfl).1⟩
  exact h.2.2.2
    [.ok (Request.mk .logout []), .ok (Request.mk .noop []), .needsMoreData]
    [Request.mk .logout [], Request.mk .noop []] none [] 0 .Close
    [.response "Bye"] rfl hclose

/-- C6: the parse loop consumes requests until the receiver signals
needs-more-data or needs-literal; a validation failure is written back and
the loop continues; and when the loop ended needing a literal of `n` bytes
and the batch completed, `ingest` writes the `OK Ready for n bytes.`
acknowledgement after the batch's responses. -/
theorem ingest_parse_loop (env : IngestEnv) :
    (∀ (r : Request) (e : TrcError) (rest : List ParseResult)
        (reqs : List Request) (outs : List Out) (w : Nat),
      (validate_request env.cfg env.st env.limiter r).1 = .error e →
      env.writeOk w = true →
      parseLoop env (.ok r :: rest) reqs outs w =
        parseLoop env rest reqs (outs ++ [.errOut e]) (w + 1)) ∧
    (∀ (rest : List ParseResult) (reqs : List Request) (outs : List Out)
        (w : Nat),
      parseLoop env (.needsMoreData :: rest) reqs outs w =
        .ok (reqs, none, outs, w)) ∧
    (∀ (n : Nat) (rest : List ParseResult) (reqs : List Request)
        (outs : List Out) (w : Nat),
      parseLoop env (.needsLiteral n :: rest) reqs outs w =
        .ok (reqs, some n, outs, w)) ∧
    (∀ (parses : List ParseResult) (reqs : List Request) (n : Nat)
        (outs₀ : List Out) (w₀ : Nat) (outs₁ : List Out) (w₁ : Nat),
      parseLoop env parses [] [] 0 = .ok (reqs, some n, outs₀, w₀) →
      dispatchLoop env reqs 0 outs₀ w₀ = .done outs₁ w₁ →
      env.writeOk w₁ = true →
      ingest env parses = (.Continue, outs₁ ++ [.line (readyLine n)])) := by
  refine ⟨?_, ?_, ?_, ?_⟩
  · intro r e rest reqs outs w hv hw
    simp [parseLoop, hv, hw]
  · intro rest reqs outs w
    simp [parseLoop]
  · intro n rest reqs outs w
    simp [parseLoop]
  · intro parses reqs n outs₀ w₀ outs₁ w₁ hp hd hw
    simp [ingest, hp, hd, hw]

/-- Witness for C6: one unauthenticated `PutScript` answered during the
parse phase, then a needs-literal break of 5 bytes, yields the error write
followed by the ready-for-5-bytes acknowledgement. -/
theorem ingest_parse_loop_witness :
    ingest
        ⟨⟨false, false, false⟩, .notAuthenticated, fun _ => .ok none,
          fun _ _ => .ok "R", fun _ => true⟩
        [.ok (Request.mk .putScript []), .needsLiteral 5] =
      (.Continue, [.errOut notAuthErr, .line (readyLine 5)]) := by
  have h := (ingest_parse_loop
    ⟨⟨false, false, false⟩, .notAuthenticated, fun _ => .ok none,
      fun _ _ => .ok "R", fun _ => true⟩).2.2.2
    [.ok (Request.mk .putScript []), .needsLiteral 5] [] 5
    [.errOut notAuthErr] 1 [.errOut notAuthErr] 1
  exact h rfl rfl rfl

/-- The write performed for one executed batch entry: the handler's response
on success, the serialized error on failure. -/
def outFor (r : Except TrcError String) : Out :=
  match r with
  | .ok resp => .response resp
  | .error e => .errOut e

/-- Executing a non-terminal batch entry whose handler succeeded writes its
response and continues with the rest of the batch. -/
theorem dispatchLoop_cons_ok (env : IngestEnv) (req : Request)
    (rest : List Request) (i : Nat) (outs : List Out) (w : Nat) (resp : String)
    (he : env.exec i req = .ok resp) (hw : env.writeOk w = true)
    (h1 : req.command ≠ .logout) (h2 : req.command ≠ .startTls) :
    dispatchLoop env (req :: rest) i outs w =
      dispatchLoop env rest (i + 1) (outs ++ [.response resp]) (w + 1) := by
  cases hc : req.command <;> simp_all [dispatchLoop]

/-- Executing a batch entry whose handler failed writes the error and
continues with the rest of the batch. -/
theorem dispatchLoop_cons_err (env : IngestEnv) (req : Request)
    (rest : List Request) (i : Nat) (outs : List Out) (w : Nat) (e : TrcError)
    (he : env.exec i req = .error e) (hw : env.writeOk w = true) :
    dispatchLoop env (req :: rest) i outs w =
      dispatchLoop env rest (i + 1) (outs ++ [.errOut e]) (w + 1) := by
  simp [dispatchLoop, he, hw]

/-- An unauthenticated session used to exhibit the response-ordering
counterexample: every handler call and write succeeds. -/
def envPipeline : IngestEnv :=
  ⟨⟨false, false, false⟩, .notAuthenticated, fun _ => .ok none,
    fun _ _ => .ok "RESP1", fun _ => true⟩

/-- Counterexample to C5: deliver the two complete pipelined commands
`Noop` (passes validation, handler response `RESP1`) and `PutScript`
(fails validation while unauthenticated). `ingest` writes the second
command's response (the validation error, written during the parse phase)
BEFORE the first command's response, so the two responses are not emitted in
the order the commands appear in the input; the two writes are distinct, so
the order is observable. -/
theorem pipeline_order_counterexample :
    ingest envPipeline
        [.ok (Request.mk .noop []), .ok (Request.mk .putScript []),
          .needsMoreData] =
      (.Continue, [.errOut notAuthErr, .response "RESP1"]) ∧
    Out.errOut notAuthErr ≠ Out.response "RESP1" := by
  refine ⟨rfl, ?_⟩
  intro h
  cases h

/-- C5 as amended: for an input holding exactly two complete pipelined
commands that BOTH pass validation, the first of which is neither `Logout`
nor `StartTls`, `ingest` writes two responses, one per command, in the order
the commands appear in the input, with no additional network read (the
parse-result stream is consumed within the single call). -/
theorem pipelined_two_commands (env : IngestEnv) (r1 r2 : Request)
    (h1 : (validate_request env.cfg env.st env.limiter r1).1 = .ok r1)
    (h2 : (validate_request env.cfg env.st env.limiter r2).1 = .ok r2)
    (ht1 : r1.command ≠ .logout) (ht2 : r1.command ≠ .startTls)
    (hw0 : env.writeOk 0 = true) (hw1 : env.writeOk 1 = true) :
    (ingest env [.ok r1, .ok r2, .needsMoreData]).2 =
      [outFor (env.exec 0 r1), outFor (env.exec 1 r2)] := by
  have hparse : parseLoop env [.ok r1, .ok r2, .needsMoreData] [] [] 0 =
      .ok ([r1, r2], none, [], 0) := by
    simp [parseLoop, h1, h2]
  have hstep1 : dispatchLoop env [r1, r2] 0 [] 0 =
      dispatchLoop env [r2] 1 [outFor (env.exec 0 r1)] 1 := by
    cases he1 : env.exec 0 r1 with
    | ok resp =>
      simpa [outFor, he1] using
        dispatchLoop_cons_ok env r1 [r2] 0 [] 0 resp he1 hw0 ht1 ht2
    | error e =>
      simpa [outFor, he1] using
        dispatchLoop_cons_err env r1 [r2] 0 [] 0 e he1 hw0
  cases he2 : env.exec 1 r2 with
  | error e =>
    simp [ingest, hparse, hstep1, dispatchLoop, he2, hw1, outFor]
    cases env.exec 0 r1 <;> simp [hw0]
  | ok resp =>
    cases hc2 : r2.command <;>
      (simp [ingest, hparse, hstep1, dispatchLoop, he2, hw1, hc2, outFor];
        cases env.exec 0 r1 <;> simp [hw0])

/-- Witness for the amended C5: two authenticated, rate-unlimited
`ListScripts` commands yield their two handler responses in input order. -/
theorem pipelined_two_commands_witness :
    (ingest
        ⟨⟨false, false, false⟩, .authenticated ⟨1⟩, fun _ => .ok none,
          fun i _ => .ok (toString i), fun _ => true⟩
        [.ok (Request.mk .listScripts []), .ok (Request.mk .listScripts []),
          .needsMoreData]).2 =
      [Out.response "0", Out.response "1"] := by
  have h := pipelined_two_commands
    ⟨⟨false, false, false⟩, .authenticated ⟨1⟩, fun _ => .ok none,
      fun i _ => .ok (toString i), fun _ => true⟩
    (Request.mk .listScripts []) (Request.mk .listScripts [])
    rfl rfl (by intro h; cases h) (by intro h; cases h) rfl rfl
  simpa using h

/-- The calls performed by the activation tail: the activation primitive,
then possibly one change-log commit. -/
theorem activateAndCommit_calls (env : SetActiveEnv) (acct : Nat)
    (target : Option Nat) (log : List SieveCall) :
    ∃ tail, (activateAndCommit env acct target log).2 =
        log ++ (.activateCall acct target :: tail) ∧
      ∀ c ∈ tail, ∃ entries, c = SieveCall.commitCall acct entries := by
  simp only [activateAndCommit]
  cases ha : env.activate acct target with
  | error e => exact ⟨[], by simp⟩
  | ok changes =>
    cases changes with
    | nil => exact ⟨[], by simp⟩
    | cons c cs =>
      cases hco : env.commit acct
          ((Collection.sieveScript, c.1) ::
            cs.map (fun c => (Collection.sieveScript, c.1))) with
      | error e =>
        exact ⟨[.commitCall acct
          ((Collection.sieveScript, c.1) ::
            cs.map (fun c => (Collection.sieveScript, c.1)))],
          by simp [hco]⟩
      | ok u =>
        exact ⟨[.commitCall acct
          ((Collection.sieveScript, c.1) ::
            cs.map (fun c => (Collection.sieveScript, c.1)))],
          by simp [hco]⟩

/-- The results produced by the activation tail: a success is always the
serialized `Success` OK status, and a `trc`-classified failure propagates
unchanged from the activation or the commit collaborator. -/
theorem activateAndCommit_result (env : SetActiveEnv) (acct : Nat)
    (target : Option Nat) (log : List SieveCall) :
    (∀ out, (activateAndCommit env acct target log).1 = .ok out →
      out = (StatusResponse.ok "Success").intoBytes) ∧
    (∀ e, (activateAndCommit env acct target log).1 = .error (.err e) →
      env.activate acct target = .error e ∨
      ∃ entries, env.commit acct entries = .error e) := by
  simp only [activateAndCommit]
  cases ha : env.activate acct target with
  | error e0 =>
    refine ⟨?_, ?_⟩ <;> intro x hx <;> simp at hx
    subst hx
    exact Or.inl rfl
  | ok changes =>
    cases changes with
    | nil =>
      refine ⟨?_, ?_⟩ <;> intro x hx <;> simp at hx
      first
      | exact hx
      | exact hx.symm
    | cons c cs =>
      cases hco : env.commit acct
          ((Collection.sieveScript, c.1) ::
            cs.map (fun c => (Collection.sieveScript, c.1))) with
      | error e1 =>
        refine ⟨?_, ?_⟩ <;> intro x hx <;> simp [hco] at hx
        subst hx
        exact Or.inr ⟨_, hco⟩

      | ok u =>
        refine ⟨?_, ?_⟩ <;> intro x hx <;> simp [hco] at hx
        first
        | exact hx
        | exact hx.symm

/-- C7: `handle_setactive` with a string first token. An empty name goes
straight to the activation primitive with no target (deactivation): the
name lookup is never called, so the `no script by that name` error cannot
arise — any failure propagates from the activation or commit collaborator.
A non-empty name is resolved by the exact-match filter: zero matches fail
with the `NonExistent`-coded, `There is no script by that name`-reasoned
error and commit nothing; several matches resolve to the minimum matching
document id. Every success answers with the `Success` OK status. -/
theorem setactive_resolution (env : SetActiveEnv) (acct : Nat) (req : Request)
    (name : String) (rest : List Token)
    (htok : req.tokens = .str name :: rest) :
    (name = "" →
      handle_setactive env acct req = activateAndCommit env acct none [] ∧
      (∀ a nm, SieveCall.filterCall a nm ∉ (handle_setactive env acct req).2) ∧
      SieveCall.activateCall acct none ∈ (handle_setactive env acct req).2 ∧
      (∀ e, (handle_setactive env acct req).1 = .error (.err e) →
        env.activate acct none = .error e ∨
        ∃ entries, env.commit acct entries = .error e)) ∧
    (name ≠ "" → env.filter acct name = .ok [] →
      handle_setactive env acct req =
        (.error (.err noScriptErr), [.filterCall acct name]) ∧
      noScriptErr.value .code = some (.code .nonExistent) ∧
      noScriptErr.value .reason =
        some (.str "There is no script by that name") ∧
      (∀ a entries,
        SieveCall.commitCall a entries ∉ (handle_setactive env acct req).2)) ∧
    (∀ (results : List Nat) (d : Nat), name ≠ "" →
      env.filter acct name = .ok results → results.min? = some d →
      get_script_id env acct name = .ok d ∧
      handle_setactive env acct req =
        activateAndCommit env acct (some d) [.filterCall acct name]) ∧
    (∀ out, (handle_setactive env acct req).1 = .ok out →
      out = (StatusResponse.ok "Success").intoBytes) := by
  refine ⟨?_, ?_, ?_, ?_⟩
  · intro hname
    subst hname
    have hh : handle_setactive env acct req = activateAndCommit env acct none [] := by
      simp [handle_setactive, htok, Token.unwrapString,
        show "".isEmpty = true from rfl]
    obtain ⟨tail, htail, hcom⟩ := activateAndCommit_calls env acct none []
    refine ⟨hh, ?_, ?_, ?_⟩
    · intro a nm hmem
      rw [hh, htail] at hmem
      simp only [List.nil_append, List.mem_cons] at hmem
      rcases hmem with h | h
      · exact SieveCall.noConfusion h
      · obtain ⟨entries, he⟩ := hcom _ h
        exact SieveCall.noConfusion he
    · rw [hh, htail]
      simp
    · intro e he
      rw [hh] at he
      exact (activateAndCommit_result env acct none []).2 e he
  · intro hname hfil
    have hne : name.isEmpty = false := by
      cases hni : name.isEmpty
      · rfl
      · exact absurd ((String.isEmpty_iff name).mp hni) hname
    have hh : handle_setactive env acct req =
        (.error (.err noScriptErr), [.filterCall acct name]) := by
      simp [handle_setactive, htok, Token.unwrapString, hne, get_script_id,
        hfil, List.min?]
    exact ⟨hh, rfl, rfl, fun a entries => by rw [hh]; simp⟩
  · intro results d hname hfil hmin
    have hne : name.isEmpty = false := by
      cases hni : name.isEmpty
      · rfl
      · exact absurd ((String.isEmpty_iff name).mp hni) hname
    have hget : get_script_id env acct name = .ok d := by
      simp [get_script_id, hfil, hmin]
    refine ⟨hget, ?_⟩
    simp [handle_setactive, htok, Token.unwrapString, hne, hget]
  · intro out hout
    rw [handle_setactive] at hout
    rw [htok] at hout
    simp only [List.head?, Option.bind, Token.unwrapString] at hout
    cases hne : name.isEmpty
    · rw [hne] at hout
      simp only [Bool.false_eq_true, if_false] at hout
      cases hget : get_script_id env acct name with
      | error e =>
        rw [hget] at hout
        simp at hout
      | ok d =>
        rw [hget] at hout
        exact (activateAndCommit_result env acct (some d)
          [.filterCall acct name]).1 out hout
    · rw [hne] at hout
      simp only [if_true] at hout
      exact (activateAndCommit_result env acct none []).1 out hout

/-- Witness for C7: account 4's store holds two scripts named `foo` with
document ids 3 and 2; `SETACTIVE foo` resolves to the minimum id 2 and
succeeds with the `Success` OK status. -/
theorem setactive_resolution_witness :
    get_script_id
        ⟨fun _ _ => .ok [3, 2], fun _ _ => .ok [(2, true)], fun _ _ => .ok ()⟩
        4 "foo" = .ok 2 ∧
    handle_setactive
        ⟨fun _ _ => .ok [3, 2], fun _ _ => .ok [(2, true)], fun _ _ => .ok ()⟩
        4 (Request.mk .setActive [.str "foo"]) =
      activateAndCommit
        ⟨fun _ _ => .ok [3, 2], fun _ _ => .ok [(2, true)], fun _ _ => .ok ()⟩
        4 (some 2) [.filterCall 4 "foo"] := by
  have h := (setactive_resolution
    ⟨fun _ _ => .ok [3, 2], fun _ _ => .ok [(2, true)], fun _ _ => .ok ()⟩
    4 (Request.mk .setActive [.str "foo"]) "foo" [] rfl).2.2.1
    [3, 2] 2 (by decide) rfl rfl
  exact h

/-- C10: a `SetActive` request with no token at all, or whose first token is
not convertible to a string, is answered with the
`Expected script name as a parameter.` negative status and performs no
collaborator call whatsoever — absence of the token is an error, not
deactivation. -/
theorem setactive_missing_name (env : SetActiveEnv) (acct : Nat)
    (req : Request)
    (h : req.tokens = [] ∨
      ∃ t rest, req.tokens = t :: rest ∧ t.unwrapString = none) :
    handle_setactive env acct req =
      (.error (.status (.no "Expected script name as a parameter.")), []) := by
  rcases h with h | ⟨t, rest, ht, hu⟩
  · simp [handle_setactive, h]
  · simp [handle_setactive, ht, hu]

/-- Witness for C10: `SETACTIVE` with a numeric first token is rejected
without any collaborator call. -/
theorem setactive_missing_name_witness :
    ((Request.mk .setActive [.num 3]).tokens = [] ∨
      ∃ t rest, (Request.mk .setActive [.num 3]).tokens = t :: rest ∧
        t.unwrapString = none) ∧
    handle_setactive
        ⟨fun _ _ => .ok [3, 2], fun _ _ => .ok [(2, true)], fun _ _ => .ok ()⟩
        7 (Request.mk .setActive [.num 3]) =
      (.error (.status (.no "Expected script name as a parameter.")), []) := by
  refine ⟨Or.inr ⟨.num 3, [], rfl, rfl⟩, ?_⟩
  exact setactive_missing_name
    ⟨fun _ _ => .ok [3, 2], fun _ _ => .ok [(2, true)], fun _ _ => .ok ()⟩
    7 (Request.mk .setActive [.num 3]) (Or.inr ⟨.num 3, [], rfl, rfl⟩)

end MailServer
